import Mathlib

/-!
Verification of the pharmacy order workflow (src/server.js, ORDERS API section,
lines 780-1053, together with the schema in src/database.js).

The embedding models the SQLite store as explicit lists of rows and each HTTP
handler as a pure function from a store (plus the request payload) to an
updated store and a result.  Monetary values (`REAL` columns `price`,
`subtotal`, `total_amount`) are modelled as rationals; `INTEGER` quantity
columns are modelled as `Int` (SQLite accepts negative values and the code
never constrains the sign).  Catalog columns never read by the order workflow
(description, category, expiry_date, supplier, barcode, image, timestamps) are
omitted from the row types; timestamps come from the ambient clock, which the
spec places out of scope.

better-sqlite3 runs every prepared statement as its own implicit transaction
and the handlers contain no BEGIN/COMMIT, so a statement that throws leaves
every earlier statement of the same handler committed; the `try/catch` blocks
only translate the exception into an HTTP 500 response.  The write phase of
order placement is therefore modelled as a list of primitive write statements
applied in order, with an optional fault index naming the first statement that
throws (modelling an I/O or constraint failure at the store level).
-/

deriving instance DecidableEq for Except

namespace Pharmacy

/-- A row of the `products` table (src/database.js lines 34-47), restricted to
the columns the order workflow reads or writes. -/
structure Product where
  id : Nat
  name : String
  quantity : Int
  price : Rat
deriving DecidableEq

/-- A row of the `orders` table (src/database.js lines 73-89).  A missing
customer field arrives as a falsy value in JS; it is modelled as `""`. -/
structure Order where
  id : Nat
  user_id : Nat
  order_number : String
  customer_name : String
  customer_email : Option String
  customer_phone : Option String
  customer_address : String
  total_amount : Rat
  status : String
  payment_method : String
  payment_status : String
  notes : Option String
deriving DecidableEq

/-- A row of the `order_items` table (src/database.js lines 92-102). -/
structure OrderItem where
  order_id : Nat
  product_id : Nat
  product_name : String
  quantity : Int
  price : Rat
  subtotal : Rat
deriving DecidableEq

/-- One entry of the `items` array of a POST /api/orders payload. -/
structure CartEntry where
  product_id : Nat
  quantity : Int
deriving DecidableEq

/-- The POST /api/orders request body (src/server.js line 925). -/
structure OrderRequest where
  items : List CartEntry
  customer_name : String
  customer_email : Option String
  customer_phone : Option String
  customer_address : String
  payment_method : Option String
  notes : Option String
deriving DecidableEq

/-- The database state: the three tables touched by the order workflow plus
the `orders` AUTOINCREMENT counter. -/
structure Store where
  products : List Product
  orders : List Order
  order_items : List OrderItem
  nextOrderId : Nat
deriving DecidableEq

/-- The error outcomes the order handlers can produce.  The first three are
the 400-level validation responses of POST /api/orders; `duplicateOrderNumber`
is the UNIQUE-constraint violation on `orders.order_number` surfacing through
the catch block as a 500; `storeFailure` stands for any other statement-level
store error (I/O, disk) surfacing as a 500. -/
inductive OrderError where
  | invalidOrder (msg : String)
  | productNotFound (pid : Nat)
  | outOfStock (name : String) (available requested : Int)
  | duplicateOrderNumber
  | orderNotFound
  | invalidStatus
  | storeFailure
deriving DecidableEq

/-- `SELECT * FROM products WHERE id = ?` (src/server.js line 940). -/
def getProduct (s : Store) (pid : Nat) : Option Product :=
  s.products.find? fun p => decide (p.id = pid)

/-- One entry of the `validateItems` array built by the validation loop
(src/server.js lines 956-962): the product data snapshotted at placement. -/
structure ValidatedItem where
  product_id : Nat
  product_name : String
  quantity : Int
  price : Rat
  subtotal : Rat
deriving DecidableEq

/-- The validation loop of POST /api/orders (src/server.js lines 939-963):
for each cart entry, look the product up, fail if it is missing or if its
stock is below the requested quantity, otherwise snapshot name, price and
subtotal.  No write happens here. -/
def validateCart (s : Store) : List CartEntry → Except OrderError (List ValidatedItem)
  | [] => Except.ok []
  | e :: rest =>
    match getProduct s e.product_id with
    | none => Except.error (OrderError.productNotFound e.product_id)
    | some p =>
      if p.quantity < e.quantity then
        Except.error (OrderError.outOfStock p.name p.quantity e.quantity)
      else
        match validateCart s rest with
        | Except.error err => Except.error err
        | Except.ok vs =>
          Except.ok (⟨p.id, p.name, e.quantity, p.price, p.price * (e.quantity : Rat)⟩ :: vs)

/-- The UNIQUE constraint on `orders.order_number` (src/database.js line 76):
does the candidate number already occur? -/
def orderNumberExists (s : Store) (n : String) : Bool :=
  s.orders.any fun o => decide (o.order_number = n)

/-- The order_items row inserted for a validated item
(src/server.js lines 991-994 and 1001). -/
def mkItem (oid : Nat) (v : ValidatedItem) : OrderItem :=
  ⟨oid, v.product_id, v.product_name, v.quantity, v.price, v.subtotal⟩

/-- A primitive write statement of the POST /api/orders write phase: the
Order header INSERT, an OrderItem INSERT, or the product-quantity UPDATE
`SET quantity = quantity - ?` (src/server.js lines 969-1003). -/
inductive WriteOp where
  | insOrder (o : Order)
  | insItem (it : OrderItem)
  | decProd (pid : Nat) (q : Int)
deriving DecidableEq

/-- Effect of a single write statement on the store. -/
def applyWrite (s : Store) : WriteOp → Store
  | WriteOp.insOrder o =>
      { s with orders := s.orders ++ [o], nextOrderId := s.nextOrderId + 1 }
  | WriteOp.insItem it => { s with order_items := s.order_items ++ [it] }
  | WriteOp.decProd pid q =>
      { s with products := s.products.map fun p =>
          if p.id = pid then { p with quantity := p.quantity - q } else p }

/-- Statements run in program order; each commits individually. -/
def applyWrites (s : Store) (ws : List WriteOp) : Store :=
  ws.foldl applyWrite s

/-- The per-item statements of the write loop (src/server.js lines
1000-1003): for each validated item, the OrderItem INSERT followed by the
product-quantity decrement. -/
def itemWrites (oid : Nat) : List ValidatedItem → List WriteOp
  | [] => []
  | v :: rest =>
      WriteOp.insItem (mkItem oid v) :: WriteOp.decProd v.product_id v.quantity ::
        itemWrites oid rest

/-- The full write script of one POST /api/orders call: the header INSERT
followed by the per-item statements. -/
def writeOps (oid : Nat) (o : Order) (vs : List ValidatedItem) : List WriteOp :=
  WriteOp.insOrder o :: itemWrites oid vs

/-- The Order header row inserted by POST /api/orders (src/server.js lines
969-986): status starts at "pending", payment_method defaults to "cash",
total is the amount accumulated during validation. -/
def mkHeader (oid userId : Nat) (orderNumber : String) (req : OrderRequest)
    (total : Rat) : Order :=
  { id := oid
    user_id := userId
    order_number := orderNumber
    customer_name := req.customer_name
    customer_email := req.customer_email
    customer_phone := req.customer_phone
    customer_address := req.customer_address
    total_amount := total
    status := "pending"
    payment_method := req.payment_method.getD "cash"
    payment_status := "pending"
    notes := req.notes }

/-- The POST /api/orders handler (src/server.js lines 923-1019), with a fault
oracle.  `orderNumber` is the value `generateOrderNumber()` returned for this
call (the generator at lines 783-787 draws the clock and a random suffix, so
it enters the model as a parameter).  `failAt = some k` means the (k+1)-th
write statement of the write phase throws at the store level; the handler's
catch block returns a 500 without undoing the statements already committed
(there is no surrounding transaction).  `failAt = none` is the fault-free run.
On success the payload is the new order's id (the handler then re-reads the
row and its items to build the response). -/
def placeOrderAux (failAt : Option Nat) (s : Store) (userId : Nat)
    (req : OrderRequest) (orderNumber : String) : Store × Except OrderError Nat :=
  if req.items.isEmpty then
    (s, Except.error (OrderError.invalidOrder "Order items are required"))
  else if req.customer_name = "" ∨ req.customer_address = "" then
    (s, Except.error (OrderError.invalidOrder "Customer name and address are required"))
  else
    match validateCart s req.items with
    | Except.error e => (s, Except.error e)
    | Except.ok vs =>
      let oid := s.nextOrderId
      let header : Order := mkHeader oid userId orderNumber req ((vs.map ValidatedItem.subtotal).sum)
      if orderNumberExists s orderNumber then
        (s, Except.error OrderError.duplicateOrderNumber)
      else
        let ws := writeOps oid header vs
        match failAt with
        | none => (applyWrites s ws, Except.ok oid)
        | some k =>
          if k < ws.length then
            (applyWrites s (ws.take k), Except.error OrderError.storeFailure)
          else
            (applyWrites s ws, Except.ok oid)

/-- The fault-free POST /api/orders handler. -/
def placeOrder : Store → Nat → OrderRequest → String → Store × Except OrderError Nat :=
  placeOrderAux none

/-- The handler calls `generateOrderNumber()` exactly once per request
(src/server.js line 966).  `nums` is the stream of numbers the generator
would produce on successive calls; the handler only ever draws the head. -/
def placeOrderWithGen (s : Store) (userId : Nat) (req : OrderRequest)
    (nums : List String) : Store × Except OrderError Nat :=
  placeOrder s userId req (nums.headD "")

/-- The status whitelist of PUT /api/orders/:id/status (src/server.js
line 1025). -/
def validStatuses : List String :=
  ["pending", "processing", "shipped", "delivered", "cancelled"]

/-- `UPDATE products SET quantity = quantity + ? WHERE id = ?`
(src/server.js line 1042). -/
def bumpQty (ps : List Product) (pid : Nat) (q : Int) : List Product :=
  ps.map fun p => if p.id = pid then { p with quantity := p.quantity + q } else p

/-- The restore loop of the cancellation branch (src/server.js lines
1044-1046): one quantity UPDATE per order item. -/
def restoreItems : List Product → List OrderItem → List Product
  | ps, [] => ps
  | ps, it :: rest => restoreItems (bumpQty ps it.product_id it.quantity) rest

/-- The PUT /api/orders/:id/status handler (src/server.js lines 1022-1053):
reject a status outside the whitelist, 404 when no row matches, otherwise
persist the new status; if and only if the new status is "cancelled", add
each of the order's items' quantities back to its product.  The handler never
inspects the order's current status. -/
def updateOrderStatus (s : Store) (orderId : Nat) (status : String) :
    Store × Except OrderError Unit :=
  if status ∈ validStatuses then
    if s.orders.any (fun o => decide (o.id = orderId)) then
      let s1 : Store :=
        { s with orders := s.orders.map fun o =>
            if o.id = orderId then { o with status := status } else o }
      if status = "cancelled" then
        let items := s1.order_items.filter fun it => decide (it.order_id = orderId)
        ({ s1 with products := restoreItems s1.products items }, Except.ok ())
      else
        (s1, Except.ok ())
    else
      (s, Except.error OrderError.orderNotFound)
  else
    (s, Except.error OrderError.invalidStatus)

/-- The session user placed by `requireAuth` (src/server.js lines 100-106). -/
structure SessionUser where
  id : Nat
  role : String
deriving DecidableEq

/-- `SELECT * FROM order_items WHERE order_id = ?`. -/
def itemsOf (s : Store) (oid : Nat) : List OrderItem :=
  s.order_items.filter fun it => decide (it.order_id = oid)

/-- The GET /api/orders/:id handler (src/server.js lines 898-920).  The
ownership check at lines 907-911 is an empty block ("For now, allow any
authenticated user to view orders"), so the session user is never consulted
beyond authentication. -/
def getOrderHandler (s : Store) (user : SessionUser) (orderId : Nat) :
    Except OrderError (Order × List OrderItem) :=
  match s.orders.find? (fun o => decide (o.id = orderId)) with
  | none => Except.error OrderError.orderNotFound
  | some o => Except.ok (o, itemsOf s orderId)

/-- Quantity of the product row with the given id (0 when absent). -/
def qtyIn (ps : List Product) (pid : Nat) : Int :=
  ((ps.find? fun p => decide (p.id = pid)).map Product.quantity).getD 0

/-- Is there a product row with the given id? -/
def hasProd (ps : List Product) (pid : Nat) : Bool :=
  ps.any fun p => decide (p.id = pid)

/-- Quantity of a product in the store. -/
def productQty (s : Store) (pid : Nat) : Int :=
  qtyIn s.products pid

/-- Total quantity the cancellation branch adds back to product `pid` when
order `oid` is cancelled: the sum of the quantities of the order's items that
reference `pid`. -/
def restoreTotal (s : Store) (oid pid : Nat) : Int :=
  (((s.order_items.filter fun it => decide (it.order_id = oid)).filter
      fun it => decide (it.product_id = pid)).map OrderItem.quantity).sum

/-- Row ids already allocated are below the AUTOINCREMENT counter. -/
def Store.WF (s : Store) : Prop :=
  (∀ o ∈ s.orders, o.id < s.nextOrderId) ∧
    (∀ it ∈ s.order_items, it.order_id < s.nextOrderId)

instance (s : Store) : Decidable s.WF := by
  unfold Store.WF; infer_instance

/-- The three 400-level validation outcomes of POST /api/orders. -/
def OrderError.isValidationError : OrderError → Bool
  | OrderError.invalidOrder _ => true
  | OrderError.productNotFound _ => true
  | OrderError.outOfStock _ _ _ => true
  | _ => false

/-- A request body with the given cart and well-formed customer fields. -/
def mkReq (items : List CartEntry) : OrderRequest :=
  { items := items
    customer_name := "Jane"
    customer_email := none
    customer_phone := none
    customer_address := "123 Rd"
    payment_method := none
    notes := none }

/-- Two products in stock, no orders yet. -/
def faultStore : Store :=
  ⟨[⟨1, "Amoxicillin", 10, 5⟩, ⟨2, "Ibuprofen", 10, 3⟩], [], [], 1⟩

/-- One product with 5 units in stock. -/
def dupCartStore : Store := ⟨[⟨1, "Paracetamol", 5, 2⟩], [], [], 1⟩

/-- One product with 10 units in stock. -/
def nonPosStore : Store := ⟨[⟨1, "Aspirin", 10, 4⟩], [], [], 1⟩

/-- An order that has already been cancelled (its item's stock was restored
when it was cancelled: the product is back at 20). -/
def cancelledOrder : Order :=
  { id := 1
    user_id := 7
    order_number := "ORD-1"
    customer_name := "Jane"
    customer_email := none
    customer_phone := none
    customer_address := "123 Rd"
    total_amount := 25
    status := "cancelled"
    payment_method := "cash"
    payment_status := "pending"
    notes := none }

/-- Store holding the already-cancelled order and its line item. -/
def recancelStore : Store :=
  ⟨[⟨1, "Paracetamol", 20, 5⟩], [cancelledOrder], [⟨1, 1, "Paracetamol", 5, 5, 25⟩], 2⟩

/-- An existing pending order occupying order number "ORD-7". -/
def priorOrder : Order :=
  { id := 1
    user_id := 3
    order_number := "ORD-7"
    customer_name := "Bob"
    customer_email := none
    customer_phone := none
    customer_address := "9 Ave"
    total_amount := 8
    status := "pending"
    payment_method := "cash"
    payment_status := "pending"
    notes := none }

/-- Store in which order number "ORD-7" is already taken. -/
def collisionStore : Store := ⟨[⟨1, "Aspirin", 10, 4⟩], [priorOrder], [], 2⟩

/-- Two products with 10 units each. -/
def oversellStore : Store :=
  ⟨[⟨1, "Amoxicillin", 10, 2⟩, ⟨2, "Ibuprofen", 10, 2⟩], [], [], 1⟩

/-- One product with 10 units in stock. -/
def scenarioStore : Store := ⟨[⟨1, "Amoxicillin", 10, 2⟩], [], [], 1⟩

/-- One product with 20 units in stock. -/
def roundTripStore : Store := ⟨[⟨1, "Cetirizine", 20, 3⟩], [], [], 1⟩

lemma applyWrites_cons (s : Store) (w : WriteOp) (ws : List WriteOp) :
    applyWrites s (w :: ws) = applyWrites (applyWrite s w) ws := rfl

lemma applyWrites_itemWrites_orders (oid : Nat) :
    ∀ (vs : List ValidatedItem) (s : Store),
      (applyWrites s (itemWrites oid vs)).orders = s.orders := by
  intro vs
  induction vs with
  | nil => intro s; rfl
  | cons v rest ih =>
      intro s
      rw [itemWrites, applyWrites_cons, applyWrites_cons, ih]
      rfl

lemma applyWrites_itemWrites_items (oid : Nat) :
    ∀ (vs : List ValidatedItem) (s : Store),
      (applyWrites s (itemWrites oid vs)).order_items
        = s.order_items ++ vs.map (mkItem oid) := by
  intro vs
  induction vs with
  | nil => intro s; simp [itemWrites, applyWrites]
  | cons v rest ih =>
      intro s
      rw [itemWrites, applyWrites_cons, applyWrites_cons, ih]
      simp [applyWrite]

lemma validateCart_subtotal (s : Store) :
    ∀ (items : List CartEntry) (vs : List ValidatedItem),
      validateCart s items = Except.ok vs →
      ∀ v ∈ vs, v.subtotal = v.price * (v.quantity : Rat) := by
  intro items
  induction items with
  | nil =>
      intro vs h v hv
      simp only [validateCart, Except.ok.injEq] at h
      subst h
      cases hv
  | cons e rest ih =>
      intro vs h v hv
      simp only [validateCart] at h
      split at h
      · cases h
      · split at h
        · cases h
        · split at h
          · cases h
          · rename_i vs' hrest
            cases h
            cases hv with
            | head => rfl
            | tail _ hv' => exact ih vs' hrest v hv'

/-- Claim C6: every PlaceOrder call that fails validation (empty cart,
missing customer name or address, unresolved product identifier, or a
requested quantity exceeding stock) is rejected before any write begins: the
store is returned unchanged, so no Order or OrderItem is created and no
Product quantity changes. -/
theorem placeOrder_validation_failure_no_write
    (s : Store) (u : Nat) (req : OrderRequest) (n : String) (e : OrderError)
    (herr : (placeOrder s u req n).2 = Except.error e)
    (hval : e.isValidationError = true) :
    (placeOrder s u req n).1 = s := by
  by_cases h1 : req.items.isEmpty
  · simp [placeOrder, placeOrderAux, h1]
  · by_cases h2 : req.customer_name = "" ∨ req.customer_address = ""
    · simp [placeOrder, placeOrderAux, h1, h2]
    · cases hv : validateCart s req.items with
      | error err => simp [placeOrder, placeOrderAux, h1, h2, hv]
      | ok vs =>
          by_cases h3 : orderNumberExists s n
          · simp [placeOrder, placeOrderAux, h1, h2, hv, h3]
          · simp [placeOrder, placeOrderAux, h1, h2, hv, h3] at herr

/-- Witness for C6: a request with a valid first item and an out-of-stock
second item is rejected with the OutOfStock validation error and the store is
unchanged. -/
theorem placeOrder_validation_failure_no_write_witness :
    (placeOrder faultStore 7 (mkReq [⟨1, 3⟩, ⟨2, 40⟩]) "ORD-1").2
        = Except.error (OrderError.outOfStock "Ibuprofen" 10 40)
      ∧ (placeOrder faultStore 7 (mkReq [⟨1, 3⟩, ⟨2, 40⟩]) "ORD-1").1 = faultStore :=
  ⟨by decide,
    placeOrder_validation_failure_no_write faultStore 7 (mkReq [⟨1, 3⟩, ⟨2, 40⟩]) "ORD-1"
      (OrderError.outOfStock "Ibuprofen" 10 40) (by decide) (by decide)⟩

lemma find?_bumpQty (ps : List Product) (pid pid' : Nat) (q : Int) :
    (bumpQty ps pid' q).find? (fun p => decide (p.id = pid))
      = (ps.find? (fun p => decide (p.id = pid))).map
          (fun p => if p.id = pid' then { p with quantity := p.quantity + q } else p) := by
  induction ps with
  | nil => rfl
  | cons p rest ih =>
      rw [bumpQty, List.map_cons]
      by_cases hp : p.id = pid
      · rw [List.find?_cons_of_pos _ (by split <;> simp [hp]),
          List.find?_cons_of_pos _ (by simp [hp]), Option.map_some']
      · rw [List.find?_cons_of_neg _ (by split <;> simp [hp]),
          List.find?_cons_of_neg _ (by simp [hp])]
        exact ih

lemma hasProd_bumpQty (ps : List Product) (pid pid' : Nat) (q : Int) :
    hasProd (bumpQty ps pid' q) pid = hasProd ps pid := by
  rw [hasProd, bumpQty, List.any_map, hasProd]
  congr 1
  funext p
  show decide ((if p.id = pid' then { p with quantity := p.quantity + q } else p).id = pid)
      = decide (p.id = pid)
  split <;> rfl

lemma qtyIn_bumpQty (ps : List Product) (pid pid' : Nat) (q : Int)
    (h : hasProd ps pid = true) :
    qtyIn (bumpQty ps pid' q) pid
      = if pid = pid' then qtyIn ps pid + q else qtyIn ps pid := by
  cases hf : ps.find? (fun p => decide (p.id = pid)) with
  | none =>
      obtain ⟨p, hmem, hp⟩ := List.any_eq_true.mp h
      rw [List.find?_eq_none] at hf
      exact absurd hp (hf p hmem)
  | some p0 =>
      have hp0 : p0.id = pid := by simpa using List.find?_some hf
      rw [qtyIn, find?_bumpQty, hf, Option.map_some', qtyIn, hf]
      by_cases hpp : pid = pid'
      · rw [if_pos hpp, if_pos (hp0.trans hpp)]
        rfl
      · rw [if_neg hpp, if_neg (fun hh => hpp ((hp0.symm.trans hh)))]

lemma restoreItems_qtyIn :
    ∀ (items : List OrderItem) (ps : List Product) (pid : Nat),
      hasProd ps pid = true →
      qtyIn (restoreItems ps items) pid
        = qtyIn ps pid
            + ((items.filter fun it => decide (it.product_id = pid)).map OrderItem.quantity).sum := by
  intro items
  induction items with
  | nil => intro ps pid _; simp [restoreItems]
  | cons it rest ih =>
      intro ps pid h
      rw [restoreItems, ih _ _ (by rw [hasProd_bumpQty]; exact h),
        qtyIn_bumpQty _ _ _ _ h]
      by_cases hp : it.product_id = pid
      · rw [List.filter_cons_of_pos (by simp [hp]), if_pos hp.symm]
        simp only [List.map_cons, List.sum_cons]
        omega
      · rw [List.filter_cons_of_neg (by simp [hp]), if_neg (fun hh => hp hh.symm)]

lemma updateOrderStatus_cancelled_eq (s : Store) (oid : Nat)
    (hex : s.orders.any (fun o => decide (o.id = oid)) = true) :
    updateOrderStatus s oid "cancelled"
      = ({ s with
            orders := s.orders.map fun o =>
              if o.id = oid then { o with status := "cancelled" } else o,
            products := restoreItems s.products
              (s.order_items.filter fun it => decide (it.order_id = oid)) },
          Except.ok ()) := by
  rw [updateOrderStatus,
    if_pos (show ("cancelled" : String) ∈ validStatuses by decide), if_pos hex]
  rfl

lemma updateOrderStatus_noncancelled_eq (s : Store) (oid : Nat) (st : String)
    (hv : st ∈ validStatuses) (hne : st ≠ "cancelled")
    (hex : s.orders.any (fun o => decide (o.id = oid)) = true) :
    updateOrderStatus s oid st
      = ({ s with
            orders := s.orders.map fun o =>
              if o.id = oid then { o with status := st } else o },
          Except.ok ()) := by
  rw [updateOrderStatus, if_pos hv, if_pos hex, if_neg hne]

/-- Claim C3: UpdateOrderStatus changes inventory exactly when the new status
is "cancelled".  Cancelling an existing order adds back each of its
OrderItems' quantities to the corresponding Product; any other valid status
leaves the products table untouched.  The final conjunct is the spec's
concrete example: stock 20, order of 5 leaves 15, cancelling returns 20. -/
theorem updateOrderStatus_inventory_iff_cancelled
    (s : Store) (oid : Nat) (st : String)
    (hst : st ∈ validStatuses)
    (hex : s.orders.any (fun o => decide (o.id = oid)) = true) :
    ((st = "cancelled" → ∀ pid, hasProd s.products pid = true →
        productQty (updateOrderStatus s oid st).1 pid
          = productQty s pid + restoreTotal s oid pid)
      ∧ (st ≠ "cancelled" → ((updateOrderStatus s oid st).1).products = s.products))
      ∧ ((placeOrder roundTripStore 7 (mkReq [⟨1, 5⟩]) "N1").2 = Except.ok 1
        ∧ productQty (placeOrder roundTripStore 7 (mkReq [⟨1, 5⟩]) "N1").1 1 = 15
        ∧ productQty (updateOrderStatus
            (placeOrder roundTripStore 7 (mkReq [⟨1, 5⟩]) "N1").1 1 "cancelled").1 1 = 20) := by
  refine ⟨⟨?_, ?_⟩, by decide, by decide, by decide⟩
  · intro hc pid hp
    subst hc
    rw [updateOrderStatus_cancelled_eq s oid hex]
    exact restoreItems_qtyIn _ _ _ hp
  · intro hne
    rw [updateOrderStatus_noncancelled_eq s oid st hst hne hex]

/-- Witness for C3: cancelling the pending order of `recancelStore`'s shape
(an order with one item of quantity 5 on a product in stock). -/
theorem updateOrderStatus_inventory_iff_cancelled_witness :
    (("processing" : String) ∈ validStatuses
        ∧ recancelStore.orders.any (fun o => decide (o.id = 1)) = true)
      ∧ (("processing" = "cancelled" → ∀ pid, hasProd recancelStore.products pid = true →
            productQty (updateOrderStatus recancelStore 1 "processing").1 pid
              = productQty recancelStore pid + restoreTotal recancelStore 1 pid)
          ∧ ("processing" ≠ "cancelled" →
              ((updateOrderStatus recancelStore 1 "processing").1).products
                = recancelStore.products))
      ∧ ((placeOrder roundTripStore 7 (mkReq [⟨1, 5⟩]) "N1").2 = Except.ok 1
        ∧ productQty (placeOrder roundTripStore 7 (mkReq [⟨1, 5⟩]) "N1").1 1 = 15
        ∧ productQty (updateOrderStatus
            (placeOrder roundTripStore 7 (mkReq [⟨1, 5⟩]) "N1").1 1 "cancelled").1 1 = 20) :=
  ⟨⟨by decide, by decide⟩,
    (updateOrderStatus_inventory_iff_cancelled recancelStore 1 "processing"
      (by decide) (by decide)).1,
    (updateOrderStatus_inventory_iff_cancelled recancelStore 1 "processing"
      (by decide) (by decide)).2⟩

/-- Claim C4 (amended): cancelling an order whose status is already
"cancelled" is not rejected — the handler never inspects the current status —
and the stock restore runs again, adding each item's quantity to its product
a second time. -/
theorem recancel_reapplies_restore
    (s : Store) (oid : Nat) (o : Order)
    (hmem : o ∈ s.orders) (hid : o.id = oid) (hstat : o.status = "cancelled") :
    (updateOrderStatus s oid "cancelled").2 = Except.ok ()
      ∧ ∀ pid, hasProd s.products pid = true →
          productQty (updateOrderStatus s oid "cancelled").1 pid
            = productQty s pid + restoreTotal s oid pid := by
  have hex : s.orders.any (fun o2 => decide (o2.id = oid)) = true :=
    List.any_eq_true.mpr ⟨o, hmem, by simp [hid]⟩
  rw [updateOrderStatus_cancelled_eq s oid hex]
  exact ⟨rfl, fun pid hp => restoreItems_qtyIn _ _ _ hp⟩

/-- Witness for the amended C4: re-cancelling the already-cancelled order of
`recancelStore` succeeds and adds the item quantity 5 back again. -/
theorem recancel_reapplies_restore_witness :
    (cancelledOrder ∈ recancelStore.orders ∧ cancelledOrder.id = 1
        ∧ cancelledOrder.status = "cancelled")
      ∧ ((updateOrderStatus recancelStore 1 "cancelled").2 = Except.ok ()
        ∧ ∀ pid, hasProd recancelStore.products pid = true →
            productQty (updateOrderStatus recancelStore 1 "cancelled").1 pid
              = productQty recancelStore pid + restoreTotal recancelStore 1 pid) :=
  ⟨⟨by decide, by decide, by decide⟩,
    recancel_reapplies_restore recancelStore 1 cancelledOrder
      (by decide) (by decide) (by decide)⟩

/-- Counterexample to C4 as stated: the second cancellation of an
already-cancelled order is accepted (result is success, not an
AlreadyCancelled error) and the product's quantity changes from 20 to 25 —
the restore is re-applied. -/
theorem recancel_accepted_counterexample :
    productQty recancelStore 1 = 20
      ∧ (updateOrderStatus recancelStore 1 "cancelled").2 = Except.ok ()
      ∧ productQty (updateOrderStatus recancelStore 1 "cancelled").1 1 = 25
      ∧ ¬productQty (updateOrderStatus recancelStore 1 "cancelled").1 1 = 20 := by
  decide

/-- Claim C10: GET /api/orders/:id performs no ownership check — its result
does not depend on the session user, and for an existing order every
authenticated caller receives the full order with its line items, never a
rejection. -/
theorem getOrder_no_ownership_check
    (s : Store) (u1 u2 : SessionUser) (oid : Nat) :
    getOrderHandler s u1 oid = getOrderHandler s u2 oid
      ∧ ∀ o : Order, s.orders.find? (fun o2 => decide (o2.id = oid)) = some o →
          getOrderHandler s u1 oid = Except.ok (o, itemsOf s oid) := by
  refine ⟨rfl, fun o ho => ?_⟩
  rw [getOrderHandler, ho]

/-- Witness for C10: on a store holding an order owned by user 7, a non-owner
(user 8) gets exactly what the owner gets, and the full order with items. -/
theorem getOrder_no_ownership_check_witness :
    getOrderHandler recancelStore ⟨8, "user"⟩ 1 = getOrderHandler recancelStore ⟨7, "user"⟩ 1
      ∧ getOrderHandler recancelStore ⟨8, "user"⟩ 1
          = Except.ok (cancelledOrder, itemsOf recancelStore 1) :=
  ⟨(getOrder_no_ownership_check recancelStore ⟨8, "user"⟩ ⟨7, "user"⟩ 1).1,
    (getOrder_no_ownership_check recancelStore ⟨8, "user"⟩ ⟨7, "user"⟩ 1).2
      cancelledOrder (by decide)⟩

/-- Claim C8 (amended): when the generated order number collides with an
existing order's number, the header INSERT violates the store's uniqueness
constraint and the call fails with the DuplicateOrderNumber error, leaving
the store unchanged; the handler makes no further attempt (it draws exactly
one generated number per call). -/
theorem placeOrder_collision_single_attempt
    (s : Store) (u : Nat) (req : OrderRequest) (n : String) (vs : List ValidatedItem)
    (h1 : req.items.isEmpty = false)
    (h2 : ¬(req.customer_name = "" ∨ req.customer_address = ""))
    (h3 : validateCart s req.items = Except.ok vs)
    (h4 : orderNumberExists s n = true) :
    placeOrder s u req n = (s, Except.error OrderError.duplicateOrderNumber) := by
  simp [placeOrder, placeOrderAux, h1, h2, h3, h4]

/-- Witness for the amended C8: a colliding number is rejected with the store
unchanged even though the generator's next number would have been fresh. -/
theorem placeOrder_collision_single_attempt_witness :
    orderNumberExists collisionStore "ORD-7" = true
      ∧ placeOrder collisionStore 7 (mkReq [⟨1, 2⟩]) "ORD-7"
          = (collisionStore, Except.error OrderError.duplicateOrderNumber) :=
  ⟨by decide,
    placeOrder_collision_single_attempt collisionStore 7 (mkReq [⟨1, 2⟩]) "ORD-7"
      [⟨1, "Aspirin", 2, 4, 4 * ((2 : Int) : Rat)⟩] (by decide) (by decide) rfl (by decide)⟩

/-- Claim C5: for every Order created by a successful PlaceOrder, the stored
total_amount equals the sum of its OrderItems' subtotals, and each
OrderItem's subtotal equals its quantity times its snapshotted price. -/
theorem placeOrder_total_reconciles
    (s : Store) (u : Nat) (req : OrderRequest) (n : String) (oid : Nat)
    (hwf : s.WF)
    (hok : (placeOrder s u req n).2 = Except.ok oid) :
    ∃ o : Order,
      (placeOrder s u req n).1.orders.find? (fun o2 => decide (o2.id = oid)) = some o
        ∧ o.total_amount = ((itemsOf (placeOrder s u req n).1 oid).map OrderItem.subtotal).sum
        ∧ ∀ it ∈ itemsOf (placeOrder s u req n).1 oid,
            it.subtotal = it.price * (it.quantity : Rat) := by
  by_cases h1 : req.items.isEmpty
  · simp [placeOrder, placeOrderAux, h1] at hok
  · by_cases h2 : req.customer_name = "" ∨ req.customer_address = ""
    · simp [placeOrder, placeOrderAux, h1, h2] at hok
    · cases hv : validateCart s req.items with
      | error err => simp [placeOrder, placeOrderAux, h1, h2, hv] at hok
      | ok vs =>
          by_cases h3 : orderNumberExists s n
          · simp [placeOrder, placeOrderAux, h1, h2, hv, h3] at hok
          · have hres1 : (placeOrder s u req n).1
                = applyWrites s (writeOps s.nextOrderId
                    (mkHeader s.nextOrderId u n req ((vs.map ValidatedItem.subtotal).sum)) vs) := by
              simp [placeOrder, placeOrderAux, h1, h2, hv, h3]
            have hoid : oid = s.nextOrderId := by
              simp [placeOrder, placeOrderAux, h1, h2, hv, h3] at hok
              omega
            subst hoid
            set hdr : Order :=
              mkHeader s.nextOrderId u n req ((vs.map ValidatedItem.subtotal).sum) with hhdr
            have hS1 : (applyWrites s (writeOps s.nextOrderId hdr vs)).orders
                = s.orders ++ [hdr] := by
              rw [writeOps, applyWrites_cons, applyWrites_itemWrites_orders]
              rfl
            have hS2 : (applyWrites s (writeOps s.nextOrderId hdr vs)).order_items
                = s.order_items ++ vs.map (mkItem s.nextOrderId) := by
              rw [writeOps, applyWrites_cons, applyWrites_itemWrites_items]
              rfl
            have hfind : (applyWrites s (writeOps s.nextOrderId hdr vs)).orders.find?
                (fun o2 => decide (o2.id = s.nextOrderId)) = some hdr := by
              rw [hS1, List.find?_append]
              have hnone : s.orders.find? (fun o2 => decide (o2.id = s.nextOrderId)) = none := by
                rw [List.find?_eq_none]
                intro o ho
                simp only [decide_eq_true_eq]
                have := hwf.1 o ho
                omega
              rw [hnone]
              simp [hhdr, mkHeader]
            have hitemsOf : itemsOf (applyWrites s (writeOps s.nextOrderId hdr vs)) s.nextOrderId
                = vs.map (mkItem s.nextOrderId) := by
              rw [itemsOf, hS2, List.filter_append]
              have hold : s.order_items.filter (fun it => decide (it.order_id = s.nextOrderId))
                  = [] := by
                rw [List.filter_eq_nil_iff]
                intro it hit
                simp only [decide_eq_true_eq]
                have := hwf.2 it hit
                omega
              have hnew : (vs.map (mkItem s.nextOrderId)).filter
                    (fun it => decide (it.order_id = s.nextOrderId))
                  = vs.map (mkItem s.nextOrderId) := by
                rw [List.filter_eq_self]
                intro it hit
                rcases List.mem_map.mp hit with ⟨v, _, rfl⟩
                simp [mkItem]
              rw [hold, hnew, List.nil_append]
            refine ⟨hdr, ?_, ?_, ?_⟩
            · rw [hres1]
              exact hfind
            · rw [hres1, hitemsOf, List.map_map]
              rfl
            · rw [hres1, hitemsOf]
              intro it hit
              rcases List.mem_map.mp hit with ⟨v, hvmem, rfl⟩
              have hsub := validateCart_subtotal s req.items vs hv v hvmem
              simpa [mkItem] using hsub

/-- Witness for C5: the spec's concrete scenario — product with price 100,
three units ordered — yields an order whose total 300 is the sum of its one
item's subtotal, with subtotal = 3 x 100. -/
theorem placeOrder_total_reconciles_witness :
    Store.WF (⟨[⟨1, "P1", 10, 100⟩], [], [], 1⟩ : Store)
      ∧ ((placeOrder (⟨[⟨1, "P1", 10, 100⟩], [], [], 1⟩ : Store) 7
            (mkReq [⟨1, 3⟩]) "ORD-1").2 = Except.ok 1)
      ∧ ∃ o : Order,
          (placeOrder (⟨[⟨1, "P1", 10, 100⟩], [], [], 1⟩ : Store) 7
              (mkReq [⟨1, 3⟩]) "ORD-1").1.orders.find? (fun o2 => decide (o2.id = 1)) = some o
            ∧ o.total_amount
                = ((itemsOf (placeOrder (⟨[⟨1, "P1", 10, 100⟩], [], [], 1⟩ : Store) 7
                    (mkReq [⟨1, 3⟩]) "ORD-1").1 1).map OrderItem.subtotal).sum
            ∧ ∀ it ∈ itemsOf (placeOrder (⟨[⟨1, "P1", 10, 100⟩], [], [], 1⟩ : Store) 7
                (mkReq [⟨1, 3⟩]) "ORD-1").1 1,
                it.subtotal = it.price * (it.quantity : Rat) :=
  ⟨by decide, by decide,
    placeOrder_total_reconciles (⟨[⟨1, "P1", 10, 100⟩], [], [], 1⟩ : Store) 7
      (mkReq [⟨1, 3⟩]) "ORD-1" 1 (by decide) (by decide)⟩

/-- Claim C1 evaluated at a failing input: the write phase is not atomic.
With two products at stock 10 and a cart of 3 units of product 1 and 4 of
product 2, if the fourth write statement (the second OrderItem INSERT)
throws, the call returns an error but the Order header, the first OrderItem
and product 1's decrement (10 to 7) all persist — there is no transaction
and no rollback around src/server.js lines 969-1003. -/
theorem placeOrder_midwrite_fault_partial_commit :
    (placeOrderAux (some 3) faultStore 7 (mkReq [⟨1, 3⟩, ⟨2, 4⟩]) "ORD-1").2
        = Except.error OrderError.storeFailure
      ∧ (placeOrderAux (some 3) faultStore 7 (mkReq [⟨1, 3⟩, ⟨2, 4⟩]) "ORD-1").1.orders.length = 1
      ∧ (placeOrderAux (some 3) faultStore 7 (mkReq [⟨1, 3⟩, ⟨2, 4⟩]) "ORD-1").1.order_items.length = 1
      ∧ productQty (placeOrderAux (some 3) faultStore 7 (mkReq [⟨1, 3⟩, ⟨2, 4⟩]) "ORD-1").1 1 = 7
      ∧ productQty (placeOrderAux (some 3) faultStore 7 (mkReq [⟨1, 3⟩, ⟨2, 4⟩]) "ORD-1").1 2 = 10 := by
  decide

/-- Claim C2 evaluated at a failing input: a cart that lists the same product
twice (3 + 3 units against stock 5) passes validation — each entry is checked
against the same pre-call stock — and the committed call drives the product's
quantity to -1, violating the non-negativity invariant. -/
theorem placeOrder_duplicate_cart_negative_stock :
    (placeOrder dupCartStore 7 (mkReq [⟨1, 3⟩, ⟨1, 3⟩]) "ORD-1").2 = Except.ok 1
      ∧ productQty (placeOrder dupCartStore 7 (mkReq [⟨1, 3⟩, ⟨1, 3⟩]) "ORD-1").1 1 = -1 := by
  decide

/-- Claim C7 evaluated at a failing input: a cart entry with quantity -2
passes the stock check (stock < -2 is false), an Order is created, and the
product's quantity changes from 10 to 12.  No positivity check exists in
src/server.js lines 939-963. -/
theorem placeOrder_accepts_nonpositive_quantity :
    (placeOrder nonPosStore 7 (mkReq [⟨1, -2⟩]) "ORD-1").2 = Except.ok 1
      ∧ (placeOrder nonPosStore 7 (mkReq [⟨1, -2⟩]) "ORD-1").1.orders.length = 1
      ∧ productQty (placeOrder nonPosStore 7 (mkReq [⟨1, -2⟩]) "ORD-1").1 1 = 12 := by
  decide

/-- Counterexample to C8 as stated: when the first generated number collides
with an existing order, the call fails with DuplicateOrderNumber and the
store is unchanged, even though the generator's next number "ORD-8" is fresh
— no retry with a freshly generated number happens. -/
theorem collision_not_retried_counterexample :
    placeOrderWithGen collisionStore 7 (mkReq [⟨1, 2⟩]) ["ORD-7", "ORD-8"]
      = (collisionStore, Except.error OrderError.duplicateOrderNumber) := by
  decide

/-- Counterexample to C9 as stated: two committed PlaceOrder calls can
together deduct more stock of a product than was available at the start of
the earlier-committing one, even when executed strictly one after the other.
The first call's cart repeats product 1 (6 then 5 units against stock 10),
both entries are validated against the same pre-call stock, the call commits
deducting 11, and a second committed call leaves product 1 at -1. -/
theorem sequential_calls_oversell_counterexample :
    (placeOrder oversellStore 7 (mkReq [⟨1, 6⟩, ⟨1, 5⟩]) "N1").2 = Except.ok 1
      ∧ (placeOrder (placeOrder oversellStore 7 (mkReq [⟨1, 6⟩, ⟨1, 5⟩]) "N1").1 8
          (mkReq [⟨2, 1⟩]) "N2").2 = Except.ok 2
      ∧ productQty (placeOrder (placeOrder oversellStore 7 (mkReq [⟨1, 6⟩, ⟨1, 5⟩]) "N1").1 8
          (mkReq [⟨2, 1⟩]) "N2").1 1 = -1 := by
  decide

/-- Claim C9 (amended): each handler body is fully synchronous, so on the
single-threaded runtime two concurrent PlaceOrder calls execute as one
serialization or the other.  For the spec's scenario — two orders, each a
single cart entry of 6 units of a product with stock 10 — under either
serialization exactly one call succeeds, the other fails with OutOfStock
(available 4, requested 6), and the final stock is 4, never negative. -/
theorem serialized_scenario_no_oversell :
    ((placeOrder scenarioStore 1 (mkReq [⟨1, 6⟩]) "N1").2 = Except.ok 1
      ∧ (placeOrder (placeOrder scenarioStore 1 (mkReq [⟨1, 6⟩]) "N1").1 2
          (mkReq [⟨1, 6⟩]) "N2").2
            = Except.error (OrderError.outOfStock "Amoxicillin" 4 6)
      ∧ productQty (placeOrder (placeOrder scenarioStore 1 (mkReq [⟨1, 6⟩]) "N1").1 2
          (mkReq [⟨1, 6⟩]) "N2").1 1 = 4)
      ∧ ((placeOrder scenarioStore 2 (mkReq [⟨1, 6⟩]) "N2").2 = Except.ok 1
        ∧ (placeOrder (placeOrder scenarioStore 2 (mkReq [⟨1, 6⟩]) "N2").1 1
            (mkReq [⟨1, 6⟩]) "N1").2
              = Except.error (OrderError.outOfStock "Amoxicillin" 4 6)
        ∧ productQty (placeOrder (placeOrder scenarioStore 2 (mkReq [⟨1, 6⟩]) "N2").1 1
            (mkReq [⟨1, 6⟩]) "N1").1 1 = 4) := by
  decide

end Pharmacy
